import Mathlib

/-!
Shallow embedding of the scan2eat backend (Express + Mongoose) route
handlers, translated from `src/server.js` and the Mongoose models in
`src/unnamed/part_000`.

JSON/JS numbers are modelled as rationals; request-body fields that may
be absent or of the wrong runtime type are modelled by a small universe
of JS values (`JSVal`).  The Mongo store is a list of documents plus an
id/timestamp counter; each handler returns its HTTP result, the store
after the request, and the ordered trace of store writes and socket.io
emissions it performed.
-/

namespace Scan2Eat

/-- A JS runtime value as the route handlers inspect it: a number
(modelled as a rational), a string, a boolean, or `undefined` (a missing
object field reads as `undefined` in JS). -/
inductive JSVal where
  | num (q : ℚ)
  | str (s : String)
  | boolean (b : Bool)
  | undef
  deriving Repr, DecidableEq

/-- JS `Number.isInteger(v)`: true exactly on integral numbers. -/
def isIntegerJS : JSVal → Bool
  | .num q => q.den == 1
  | _ => false

/-- The check `typeof v === "string"`. -/
def typeofString : JSVal → Bool
  | .str _ => true
  | _ => false

/-- The check `typeof v === "number"`. -/
def typeofNumber : JSVal → Bool
  | .num _ => true
  | _ => false

/-- Numeric value of a JS value; route code only applies arithmetic to
values already checked (or assumed) to be numbers, the `0` branch is
junk for the other cases. -/
def jsNumber : JSVal → ℚ
  | .num q => q
  | _ => 0

/-- String value of a JS value (junk `""` off the string case). -/
def jsString : JSVal → String
  | .str s => s
  | _ => ""

/-- One element of the `items` array of a POST /api/orders body.  Each
field holds whatever JS value the client sent; a missing field is
`JSVal.undef`. -/
structure ItemInput where
  name  : JSVal
  price : JSVal
  qty   : JSVal
  deriving Repr, DecidableEq

/-- Request body of POST /api/orders.  `items` is `none` when the body's
`items` property is not an array (`Array.isArray` fails).  The handler
destructures only `tableId` and `items`; we keep a client-supplied
`total` field to state that it is ignored. -/
structure OrdersBody where
  tableId : JSVal
  items   : Option (List ItemInput)
  total   : JSVal
  deriving Repr, DecidableEq

/-- A line item as stored inside an Order document
(`ItemSchema` in `src/unnamed/part_000`: `name : String`, `qty : Number`,
`price : Number`, all required). -/
structure Item where
  name  : String
  qty   : ℚ
  price : ℚ
  deriving Repr, DecidableEq

/-- An Order document (`OrderSchema` in `src/unnamed/part_000`):
`tableId : Number`, `items : [ItemSchema]`, `total : Number`,
`status : String` (enum, default "pending"), `paid : Bool`
(default false), plus store-assigned `_id` and `createdAt`. -/
structure Order where
  id        : Nat
  tableId   : ℚ
  items     : List Item
  total     : ℚ
  status    : String
  paid      : Bool
  createdAt : Nat
  deriving Repr, DecidableEq

/-- The Mongo collection backing the Order model: the stored documents
in insertion order plus the id and timestamp counters the store uses
for `_id` and `createdAt`. -/
structure OrderStore where
  orders : List Order
  nextId : Nat
  now    : Nat
  deriving Repr, DecidableEq

/-- A MenuItem document (model file absent from the repository snapshot;
fields as used by the routes in `src/server.js` and described by the
data model: `name`, `price`, optional `description`/`imageUrl`,
`available : Bool`, store-assigned id and `createdAt`). -/
structure MenuItem where
  id          : Nat
  name        : String
  price       : ℚ
  description : Option String
  imageUrl    : Option String
  available   : Bool
  createdAt   : Nat
  deriving Repr, DecidableEq

/-- The Mongo collection backing the MenuItem model. -/
structure MenuStore where
  items  : List MenuItem
  nextId : Nat
  now    : Nat
  deriving Repr, DecidableEq

/-- One observable side effect of a request, in execution order: a store
write (the document as committed) or a socket.io broadcast
(`io.emit(name, payload)`; menu events carry no payload). -/
inductive Event where
  | orderWrite (o : Order)
  | menuWrite (m : MenuItem)
  | emitOrderEvent (name : String) (o : Order)
  | emitMenuEvent (name : String)
  deriving Repr, DecidableEq

/-- Whether an event is a broadcast emission (as opposed to a store write). -/
def isEmitEvent : Event → Bool
  | .emitOrderEvent _ _ => true
  | .emitMenuEvent _ => true
  | _ => false

/-! ## Access gate (`requireCashier`, src/server.js)

`req.headers["x-access-token"]` is a string or `undefined`, and
`process.env.CASHIER_TOKEN` is a string or `undefined`; the gate passes
exactly when `token !== process.env.CASHIER_TOKEN` is false, i.e. on
strict equality, including `undefined === undefined`. -/

/-- The gate `requireCashier`: the request proceeds iff the `x-access-token`
header strictly equals the configured `CASHIER_TOKEN`. -/
def requireCashier (secret token : Option String) : Bool :=
  token == secret

/-! ## POST /api/orders (src/server.js) -/

/-- The per-item validation of POST /api/orders:
`typeof i.name === "string" && typeof i.price === "number" &&
typeof i.qty === "number"`. -/
def validItem (i : ItemInput) : Bool :=
  typeofString i.name && typeofNumber i.price && typeofNumber i.qty

/-- The fold `items.reduce((sum, i) => sum + i.price * i.qty, 0)`. -/
def computeTotal (items : List ItemInput) : ℚ :=
  items.foldl (fun sum i => sum + jsNumber i.price * jsNumber i.qty) 0

/-- Coercion of a validated item input into the stored line item
(Mongoose casts the already-type-checked fields). -/
def toItem (i : ItemInput) : Item :=
  { name := jsString i.name, qty := jsNumber i.qty, price := jsNumber i.price }

/-- HTTP outcome of POST /api/orders: 201 with the created Order, or a
400 validation failure. -/
inductive PostOrdersResult where
  | created (code : Nat) (o : Order)
  | badRequest (code : Nat) (msg : String)
  deriving Repr, DecidableEq

/-- Whether a POST /api/orders outcome is a 400-class validation failure. -/
def isValidationFailure : PostOrdersResult → Bool
  | .badRequest code _ => code == 400
  | _ => false

/-- The POST /api/orders handler.  Checks
`!Number.isInteger(tableId) || !Array.isArray(items) || !items.length`,
then `items.every(valid)`, then computes the total server-side and
persists `{tableId, items, total, status: "pending"}` (the schema
defaults `paid` to `false` and the store assigns `_id`/`createdAt`),
emits `order:new` with the stored order, and answers 201. -/
def postOrders (st : OrderStore) (body : OrdersBody) :
    PostOrdersResult × OrderStore × List Event :=
  match body.items with
  | none => (.badRequest 400 "Invalid order", st, [])
  | some items =>
    if !isIntegerJS body.tableId || items.isEmpty then
      (.badRequest 400 "Invalid order", st, [])
    else if !items.all validItem then
      (.badRequest 400 "Invalid items", st, [])
    else
      let total := computeTotal items
      let order : Order :=
        { id := st.nextId
          tableId := jsNumber body.tableId
          items := items.map toItem
          total := total
          status := "pending"
          paid := false
          createdAt := st.now }
      let st' : OrderStore :=
        { orders := st.orders ++ [order], nextId := st.nextId + 1, now := st.now + 1 }
      (.created 201 order, st', [.orderWrite order, .emitOrderEvent "order:new" order])

/-! ## PATCH /api/orders/:id (src/server.js) -/

/-- The status allow-list of PATCH /api/orders/:id:
`["pending", "cooking", "ready", "completed"]`. -/
def allowedStatuses : List String :=
  ["pending", "cooking", "ready", "completed"]

/-- JS `Array.prototype.includes` of a string array against an arbitrary
JS value: strict equality means a non-string never matches. -/
def jsIncludes (l : List String) (v : JSVal) : Bool :=
  match v with
  | .str s => l.contains s
  | _ => false

/-- Lookup `Order.findById(id)`: the stored document with the given id, if any. -/
def findById (st : OrderStore) (id : Nat) : Option Order :=
  st.orders.find? (fun o => o.id == id)

/-- Write-back `order.save()`: write the (mutated) document back over the stored
copy with the same id. -/
def saveOrder (st : OrderStore) (o : Order) : OrderStore :=
  { st with orders := st.orders.map (fun p => if p.id == o.id then o else p) }

/-- HTTP outcome of PATCH /api/orders/:id. -/
inductive PatchOrderResult where
  | ok (code : Nat) (o : Order)
  | badRequest (code : Nat) (msg : String)
  | notFound (code : Nat) (msg : String)
  | unauthorized (code : Nat) (msg : String)
  deriving Repr, DecidableEq

/-- The PATCH /api/orders/:id handler body (after the `requireCashier`
gate): reject a status outside the allow-list with 400, reject an
unresolved id with 404, otherwise set `order.status`, `save()`, emit
`order:update` with the saved order, and answer 200. -/
def patchOrderInner (st : OrderStore) (id : Nat) (status : JSVal) :
    PatchOrderResult × OrderStore × List Event :=
  if !jsIncludes allowedStatuses status then
    (.badRequest 400 "Invalid status", st, [])
  else
    match findById st id with
    | none => (.notFound 404 "Order not found", st, [])
    | some order =>
      let order' := { order with status := jsString status }
      let st' := saveOrder st order'
      (.ok 200 order', st', [.orderWrite order', .emitOrderEvent "order:update" order'])

/-- PATCH /api/orders/:id with its `requireCashier` gate in front. -/
def patchOrder (secret token : Option String) (st : OrderStore) (id : Nat)
    (status : JSVal) : PatchOrderResult × OrderStore × List Event :=
  if !requireCashier secret token then
    (.unauthorized 401 "Unauthorized", st, [])
  else
    patchOrderInner st id status

/-! ## Menu routes (src/server.js) -/

/-- The sort `.sort({ createdAt: 1 })`: ascending creation order. -/
def sortByCreatedAt (l : List MenuItem) : List MenuItem :=
  l.mergeSort (fun a b => a.createdAt ≤ b.createdAt)

/-- GET /api/menu response list:
`MenuItem.find({ available: true }).sort({ createdAt: 1 })`. -/
def listPublic (ms : MenuStore) : List MenuItem :=
  sortByCreatedAt (ms.items.filter (fun m => m.available))

/-- GET /api/menu/all response list (behind `requireCashier`):
`MenuItem.find().sort({ createdAt: 1 })`. -/
def listAll (ms : MenuStore) : List MenuItem :=
  sortByCreatedAt ms.items

/-- HTTP outcome of GET /api/menu/all. -/
inductive GetMenuAllResult where
  | ok (code : Nat) (items : List MenuItem)
  | unauthorized (code : Nat) (msg : String)
  deriving Repr, DecidableEq

/-- The GET /api/menu/all handler with its `requireCashier` gate. -/
def getMenuAll (secret token : Option String) (ms : MenuStore) :
    GetMenuAllResult × MenuStore × List Event :=
  if !requireCashier secret token then
    (.unauthorized 401 "Unauthorized", ms, [])
  else
    (.ok 200 (listAll ms), ms, [])

/-- Request body of POST /api/menu as destructured by the handler. -/
structure MenuBody where
  name        : String
  price       : ℚ
  description : Option String
  imageUrl    : Option String
  deriving Repr, DecidableEq

/-- HTTP outcome of POST /api/menu. -/
inductive PostMenuResult where
  | created (code : Nat) (m : MenuItem)
  | unauthorized (code : Nat) (msg : String)
  deriving Repr, DecidableEq

/-- The POST /api/menu handler with its `requireCashier` gate:
`MenuItem.create({name, price, description, imageUrl})` (the model
defaults `available`; the model file is absent from the snapshot, the
spec's catalog-wide default is modelled as `true`), then
`io.emit("menu:update")` and 201. -/
def postMenu (secret token : Option String) (ms : MenuStore) (body : MenuBody) :
    PostMenuResult × MenuStore × List Event :=
  if !requireCashier secret token then
    (.unauthorized 401 "Unauthorized", ms, [])
  else
    let item : MenuItem :=
      { id := ms.nextId
        name := body.name
        price := body.price
        description := body.description
        imageUrl := body.imageUrl
        available := true
        createdAt := ms.now }
    let ms' : MenuStore :=
      { items := ms.items ++ [item], nextId := ms.nextId + 1, now := ms.now + 1 }
    (.created 201 item, ms', [.menuWrite item, .emitMenuEvent "menu:update"])

/-- HTTP outcome of PATCH /api/menu/:id: the handler always answers 200
after the gate, with `res.json(item)` where `item` is the updated
document or `null` when the id did not resolve. -/
inductive PatchMenuResult where
  | ok (code : Nat) (payload : Option MenuItem)
  | unauthorized (code : Nat) (msg : String)
  deriving Repr, DecidableEq

/-- Update `MenuItem.findByIdAndUpdate(id, { available }, { new: true })`:
returns the updated document and the new store when the id resolves,
and `null` with the store untouched otherwise. -/
def findByIdAndUpdateAvailable (ms : MenuStore) (id : Nat) (available : Bool) :
    Option MenuItem × MenuStore :=
  match ms.items.find? (fun m => m.id == id) with
  | none => (none, ms)
  | some m =>
    let m' := { m with available := available }
    (some m',
     { ms with items := ms.items.map (fun p => if p.id == id then m' else p) })

/-- The PATCH /api/menu/:id handler with its `requireCashier` gate:
update-by-id, then unconditionally `io.emit("menu:update")` and
`res.json(item)` — there is no not-found branch. -/
def patchMenu (secret token : Option String) (ms : MenuStore) (id : Nat)
    (available : Bool) : PatchMenuResult × MenuStore × List Event :=
  if !requireCashier secret token then
    (.unauthorized 401 "Unauthorized", ms, [])
  else
    let r := findByIdAndUpdateAvailable ms id available
    (.ok 200 r.1, r.2,
     (match r.1 with | some m => [Event.menuWrite m] | none => []) ++
       [Event.emitMenuEvent "menu:update"])

/-! ## Helper lemmas -/

/-- Accumulator form of the total fold. -/
lemma foldl_total_eq (l : List ItemInput) (a : ℚ) :
    l.foldl (fun sum i => sum + jsNumber i.price * jsNumber i.qty) a
      = a + (l.map fun i => jsNumber i.price * jsNumber i.qty).sum := by
  induction l generalizing a with
  | nil => simp
  | cons x xs ih => simp [ih, add_assoc]

/-- The server-computed total is the sum over items of price × quantity. -/
lemma computeTotal_eq (l : List ItemInput) :
    computeTotal l = (l.map fun i => jsNumber i.price * jsNumber i.qty).sum := by
  simp [computeTotal, foldl_total_eq]

/-- Inversion of a successful POST /api/orders: the validation checks
passed, and the created order, new store and trace have the stated
shape. -/
lemma postOrders_created (st : OrderStore) (body : OrdersBody)
    (o : Order) (st' : OrderStore) (tr : List Event)
    (h : postOrders st body = (.created 201 o, st', tr)) :
    ∃ items, body.items = some items ∧
      isIntegerJS body.tableId = true ∧ items.isEmpty = false ∧
      items.all validItem = true ∧
      o = { id := st.nextId, tableId := jsNumber body.tableId,
            items := items.map toItem, total := computeTotal items,
            status := "pending", paid := false, createdAt := st.now } ∧
      st' = { orders := st.orders ++ [o], nextId := st.nextId + 1,
              now := st.now + 1 } ∧
      tr = [.orderWrite o, .emitOrderEvent "order:new" o] := by
  unfold postOrders at h
  cases hits : body.items with
  | none => rw [hits] at h; simp at h
  | some items =>
    rw [hits] at h
    dsimp only at h
    by_cases h1 : (!isIntegerJS body.tableId || items.isEmpty) = true
    · rw [if_pos h1] at h; simp at h
    · rw [if_neg h1] at h
      by_cases h2 : (!items.all validItem) = true
      · rw [if_pos h2] at h; simp at h
      · rw [if_neg h2] at h
        simp only [Bool.or_eq_true, Bool.not_eq_true', not_or,
          Bool.not_eq_true] at h1 h2
        obtain ⟨hint, hne⟩ := h1
        refine ⟨items, rfl, by simpa using hint, by simpa using hne,
          by simpa using h2, ?_⟩
        simp only [Prod.mk.injEq, PostOrdersResult.created.injEq] at h
        obtain ⟨⟨-, ho⟩, hst, htr⟩ := h
        subst ho; subst hst; subst htr
        exact ⟨rfl, rfl, rfl⟩

/-! ## Concrete scenario inputs -/

/-- An empty order store whose next assigned id is 1. -/
def st0 : OrderStore := { orders := [], nextId := 1, now := 0 }

/-- The request item `{name: "Soup", price: 4.5, qty: 2}`. -/
def soupItem : ItemInput :=
  { name := .str "Soup", price := .num (9/2), qty := .num 2 }

/-- The request body `{tableId: 5, items: [{name: "Soup", price: 4.5,
qty: 2}]}`. -/
def soupBody : OrdersBody :=
  { tableId := .num 5, items := some [soupItem], total := .undef }

/-- The Order that POST /api/orders persists for `soupBody` on `st0`. -/
def soupOrder : Order :=
  { id := 1, tableId := 5, items := [{ name := "Soup", qty := 2, price := 9/2 }],
    total := 9, status := "pending", paid := false, createdAt := 0 }

/-- The order store after the soup order is created. -/
def soupStore : OrderStore := { orders := [soupOrder], nextId := 2, now := 1 }

/-- The side-effect trace of the soup order creation. -/
def soupTrace : List Event :=
  [.orderWrite soupOrder, .emitOrderEvent "order:new" soupOrder]

/-- Evaluation of the handler on the soup scenario (shared by the
scenario hypotheses below). -/
lemma postOrders_soup :
    postOrders st0 soupBody = (.created 201 soupOrder, soupStore, soupTrace) := by
  simp [postOrders, st0, soupBody, soupItem, soupOrder, soupStore, soupTrace,
    computeTotal, jsNumber, isIntegerJS, validItem, typeofString, typeofNumber,
    toItem, jsString]

/-! ## Claims -/

/-- C1: for every order-creation request that passes validation, the
persisted and returned Order's total equals the sum over the submitted
items of price times quantity, computed by the server; the response
carries status "pending" and paid false, and any client-supplied total
is ignored (the handler's outcome does not depend on the body's `total`
field). -/
theorem C1_total_server_computed (st : OrderStore) (body : OrdersBody)
    (o : Order) (st' : OrderStore) (tr : List Event)
    (h : postOrders st body = (.created 201 o, st', tr)) :
    o.total = ((body.items.getD []).map fun i => jsNumber i.price * jsNumber i.qty).sum
      ∧ o.status = "pending" ∧ o.paid = false
      ∧ ∀ t : JSVal, postOrders st { body with total := t } = postOrders st body := by
  obtain ⟨items, hits, -, -, -, ho, -, -⟩ := postOrders_created st body o st' tr h
  subst ho
  refine ⟨?_, rfl, rfl, ?_⟩
  · simp [hits, computeTotal_eq]
  · intro t; cases body; rfl

/-- Witness for C1: the spec's scenario, `{tableId: 5, items: [{name:
"Soup", price: 4.5, qty: 2}]}` answers 201 with total 9, status
"pending", paid false, and the total is the sum of price × qty. -/
theorem C1_total_server_computed_witness :
    postOrders st0 soupBody = (.created 201 soupOrder, soupStore, soupTrace)
      ∧ soupOrder.total = 9 ∧ soupOrder.status = "pending" ∧ soupOrder.paid = false
      ∧ soupOrder.total
          = ((soupBody.items.getD []).map fun i => jsNumber i.price * jsNumber i.qty).sum :=
  ⟨postOrders_soup, rfl, rfl, rfl,
   (C1_total_server_computed st0 soupBody soupOrder soupStore soupTrace
      postOrders_soup).1⟩

/-- A body whose `items` array is present but empty. -/
def emptyItemsBody : OrdersBody :=
  { tableId := .num 3, items := some [], total := .undef }

/-- C2: an order-creation request with an empty items list, a
non-integer tableId, or an item missing name, price, or quantity is
rejected with a 400 validation failure, and the store is not written
(state unchanged, empty side-effect trace). -/
theorem C2_invalid_creation_rejected (st : OrderStore) (body : OrdersBody)
    (h : body.items = none ∨ body.items = some []
        ∨ isIntegerJS body.tableId = false
        ∨ ∃ i ∈ body.items.getD [],
            i.name = .undef ∨ i.price = .undef ∨ i.qty = .undef) :
    isValidationFailure (postOrders st body).1 = true
      ∧ (postOrders st body).2.1 = st ∧ (postOrders st body).2.2 = [] := by
  cases hits : body.items with
  | none => simp [postOrders, hits, isValidationFailure]
  | some items =>
    by_cases h1 : (!isIntegerJS body.tableId || items.isEmpty) = true
    · simp [postOrders, hits, h1, isValidationFailure]
    · by_cases h2 : (!items.all validItem) = true
      · simp [postOrders, hits, h1, h2, isValidationFailure]
      · exfalso
        simp only [Bool.or_eq_true, Bool.not_eq_true', not_or,
          Bool.not_eq_true] at h1 h2
        obtain ⟨hint, hne⟩ := h1
        rcases h with hnone | hempty | hbad | ⟨i, hi, hf⟩
        · rw [hits] at hnone; cases hnone
        · rw [hits] at hempty
          cases hempty
          simp at hne
        · exact hint hbad
        · rw [hits] at hi
          simp only [Option.getD_some] at hi
          have hv : validItem i = true := by
            have := List.all_eq_true.1 (by simpa using h2) i hi
            simpa using this
          rcases hf with hf | hf | hf <;>
            simp [validItem, hf, typeofString, typeofNumber] at hv

/-- Witness for C2: a body with an empty items array is rejected with a
400 and the store stays empty. -/
theorem C2_invalid_creation_rejected_witness :
    isValidationFailure (postOrders st0 emptyItemsBody).1 = true
      ∧ (postOrders st0 emptyItemsBody).2.1 = st0
      ∧ (postOrders st0 emptyItemsBody).2.2 = [] :=
  C2_invalid_creation_rejected st0 emptyItemsBody (Or.inr (Or.inl rfl))

/-- C3: updating an order's status to a value outside
`{pending, cooking, ready, completed}` fails with the 400 validation
error and leaves the store (hence every stored Order) unchanged, with
no store write in the trace. -/
theorem C3_invalid_status_rejected (secret token : Option String)
    (st : OrderStore) (id : Nat) (s : String)
    (hauth : requireCashier secret token = true)
    (hs : s ∉ allowedStatuses) :
    patchOrder secret token st id (.str s)
      = (.badRequest 400 "Invalid status", st, []) := by
  have hc : jsIncludes allowedStatuses (.str s) = false := by
    simp only [jsIncludes, List.contains_eq_any_beq]
    simp only [List.any_eq_false, beq_iff_eq]
    intro x hx hsx
    exact hs (hsx ▸ hx)
  simp [patchOrder, patchOrderInner, hauth, hc]

/-- Witness for C3: an authorized PATCH with status "served" is rejected
with 400 and the store is untouched. -/
theorem C3_invalid_status_rejected_witness :
    patchOrder (some "cashier-token") (some "cashier-token") st0 0 (.str "served")
      = (.badRequest 400 "Invalid status", st0, []) :=
  C3_invalid_status_rejected (some "cashier-token") (some "cashier-token") st0 0
    "served" rfl (by decide)

/-- Inversion of a successful PATCH /api/orders/:id body: the status was
allowed, the id resolved, and the result, new store and trace have the
stated shape. -/
lemma patchOrderInner_ok (st : OrderStore) (id : Nat) (sv : JSVal)
    (o : Order) (st' : OrderStore) (tr : List Event)
    (h : patchOrderInner st id sv = (.ok 200 o, st', tr)) :
    ∃ prev, jsIncludes allowedStatuses sv = true ∧ findById st id = some prev
      ∧ o = { prev with status := jsString sv }
      ∧ st' = saveOrder st o
      ∧ tr = [.orderWrite o, .emitOrderEvent "order:update" o] := by
  unfold patchOrderInner at h
  by_cases h1 : (!jsIncludes allowedStatuses sv) = true
  · rw [if_pos h1] at h; simp at h
  · rw [if_neg h1] at h
    cases hfind : findById st id with
    | none => rw [hfind] at h; simp at h
    | some prev =>
      rw [hfind] at h
      dsimp only at h
      simp only [Prod.mk.injEq, PatchOrderResult.ok.injEq] at h
      obtain ⟨⟨-, ho⟩, hst, htr⟩ := h
      refine ⟨prev, by simpa using h1, rfl, ho.symm, ?_, ?_⟩
      · rw [← hst, ho]
      · rw [← htr, ho]

/-- A saved order is among the stored documents, provided some stored
document carried its id (which `findById` guarantees). -/
lemma mem_saveOrder_self (st : OrderStore) (o prev : Order)
    (hprev : prev ∈ st.orders) (hid : prev.id = o.id) :
    o ∈ (saveOrder st o).orders := by
  simp only [saveOrder]
  exact List.mem_map.2 ⟨prev, hprev, by simp [hid]⟩

/-- The order after PATCHing the soup order to "ready". -/
def readyOrder : Order := { soupOrder with status := "ready" }

/-- The store after the soup order is marked "ready". -/
def readyStore : OrderStore := { orders := [readyOrder], nextId := 2, now := 1 }

/-- The side-effect trace of the status update. -/
def readyTrace : List Event :=
  [.orderWrite readyOrder, .emitOrderEvent "order:update" readyOrder]

/-- Evaluation of the PATCH handler body on the "ready" scenario. -/
lemma patchOrderInner_soup :
    patchOrderInner soupStore 1 (.str "ready")
      = (.ok 200 readyOrder, readyStore, readyTrace) := by
  simp [patchOrderInner, soupStore, readyOrder, readyStore, readyTrace,
    findById, saveOrder, jsIncludes, allowedStatuses, jsString, soupOrder]

/-- C4: a successful order creation and a successful order status update
each produce a trace holding exactly one broadcast, whose payload is the
entity as written to the store (the emitted order is a member of the
post-request store), and the broadcast follows the store write in the
trace. -/
theorem C4_single_broadcast_after_write
    (st : OrderStore) (body : OrdersBody) (o : Order) (st' : OrderStore)
    (tr : List Event) (stp : OrderStore) (id : Nat) (sv : JSVal) (o2 : Order)
    (stp' : OrderStore) (tr2 : List Event)
    (hc : postOrders st body = (.created 201 o, st', tr))
    (hp : patchOrderInner stp id sv = (.ok 200 o2, stp', tr2)) :
    tr = [.orderWrite o, .emitOrderEvent "order:new" o]
      ∧ tr.filter isEmitEvent = [.emitOrderEvent "order:new" o]
      ∧ o ∈ st'.orders
      ∧ tr2 = [.orderWrite o2, .emitOrderEvent "order:update" o2]
      ∧ tr2.filter isEmitEvent = [.emitOrderEvent "order:update" o2]
      ∧ o2 ∈ stp'.orders := by
  obtain ⟨items, -, -, -, -, -, hst, htr⟩ := postOrders_created st body o st' tr hc
  obtain ⟨prev, -, hfind, ho2, hstp, htr2⟩ := patchOrderInner_ok stp id sv o2 stp' tr2 hp
  subst htr; subst hst; subst htr2; subst hstp
  refine ⟨rfl, by simp [isEmitEvent], by simp, rfl, by simp [isEmitEvent], ?_⟩
  have hprev : prev ∈ stp.orders := List.mem_of_find?_eq_some hfind
  exact mem_saveOrder_self stp o2 prev hprev (by rw [ho2])

/-- Witness for C4: the soup creation and the "ready" status update each
emit exactly one broadcast, after their store write, carrying the stored
entity. -/
theorem C4_single_broadcast_after_write_witness :
    soupTrace = [.orderWrite soupOrder, .emitOrderEvent "order:new" soupOrder]
      ∧ soupTrace.filter isEmitEvent = [.emitOrderEvent "order:new" soupOrder]
      ∧ soupOrder ∈ soupStore.orders
      ∧ readyTrace = [.orderWrite readyOrder, .emitOrderEvent "order:update" readyOrder]
      ∧ readyTrace.filter isEmitEvent = [.emitOrderEvent "order:update" readyOrder]
      ∧ readyOrder ∈ readyStore.orders :=
  C4_single_broadcast_after_write st0 soupBody soupOrder soupStore soupTrace
    soupStore 1 (.str "ready") readyOrder readyStore readyTrace
    postOrders_soup patchOrderInner_soup

/-- C5 counterexample: the status allow-list is checked before the id
lookup, so a request whose orderId does not resolve but whose status is
invalid answers 400, not 404 — UpdateStatus on a non-existent id does
not always return the not-found error. -/
theorem C5_counterexample :
    findById st0 0 = none
      ∧ (patchOrderInner st0 0 (.str "served")).1 = .badRequest 400 "Invalid status"
      ∧ (patchOrderInner st0 0 (.str "served")).1 ≠ .notFound 404 "Order not found" := by
  refine ⟨rfl, rfl, ?_⟩
  intro h
  cases h

/-- C5 amended: on a non-resolving orderId, UpdateStatus with a status
from the allow-list answers 404 with no write; with any status at all it
still performs no write (unchanged store, empty trace), an invalid
status answering 400 before the store is consulted. -/
theorem C5_not_found_no_write (st : OrderStore) (id : Nat) (sv : JSVal)
    (hnone : findById st id = none) :
    (jsIncludes allowedStatuses sv = true →
        patchOrderInner st id sv = (.notFound 404 "Order not found", st, []))
      ∧ ∀ sv2 : JSVal, (patchOrderInner st id sv2).2.1 = st
          ∧ (patchOrderInner st id sv2).2.2 = [] := by
  constructor
  · intro hv
    simp [patchOrderInner, hv, hnone]
  · intro sv2
    by_cases hv2 : jsIncludes allowedStatuses sv2 = true
    · simp [patchOrderInner, hv2, hnone]
    · simp only [Bool.not_eq_true] at hv2
      simp [patchOrderInner, hv2]

/-- Witness for C5 amended: PATCH on the empty store with status
"ready" answers 404 and writes nothing. -/
theorem C5_not_found_no_write_witness :
    (jsIncludes allowedStatuses (.str "ready") = true →
        patchOrderInner st0 0 (.str "ready")
          = (.notFound 404 "Order not found", st0, []))
      ∧ ∀ sv2 : JSVal, (patchOrderInner st0 0 sv2).2.1 = st0
          ∧ (patchOrderInner st0 0 sv2).2.2 = [] :=
  C5_not_found_no_write st0 0 (.str "ready") rfl

/-- An empty menu store whose next assigned id is 1. -/
def ms0 : MenuStore := { items := [], nextId := 1, now := 0 }

/-- C6 counterexample: the PATCH /api/menu/:id handler has no not-found
branch at all — an authorized request whose itemId does not resolve
answers 200 with a `null` payload (and still emits `menu:update`), never
404. -/
theorem C6_counterexample :
    ms0.items.find? (fun m => m.id == 0) = none
      ∧ patchMenu (some "tk") (some "tk") ms0 0 false
          = (.ok 200 none, ms0, [.emitMenuEvent "menu:update"]) :=
  ⟨rfl, rfl⟩

/-- C6 amended: for an authorized PATCH /api/menu/:id whose itemId does
not resolve, the handler performs no store write and answers 200 with a
null payload (still emitting `menu:update`); there is no 404 response. -/
theorem C6_set_availability_missing_id (secret token : Option String)
    (ms : MenuStore) (id : Nat) (available : Bool)
    (hauth : requireCashier secret token = true)
    (hnone : ms.items.find? (fun m => m.id == id) = none) :
    patchMenu secret token ms id available
      = (.ok 200 none, ms, [.emitMenuEvent "menu:update"]) := by
  simp [patchMenu, hauth, findByIdAndUpdateAvailable, hnone]

/-- Witness for C6 amended: the counterexample scenario through the
amended theorem. -/
theorem C6_set_availability_missing_id_witness :
    patchMenu (some "tk2") (some "tk2") ms0 5 true
      = (.ok 200 none, ms0, [.emitMenuEvent "menu:update"]) :=
  C6_set_availability_missing_id (some "tk2") (some "tk2") ms0 5 true rfl rfl

/-- An arbitrary POST /api/menu body used in concrete scenarios. -/
def sampleMenuBody : MenuBody :=
  { name := "Tea", price := 2, description := none, imageUrl := none }

/-- C7: a request to any cashier-restricted endpoint whose
`x-access-token` header is not strictly equal to the configured secret
is answered 401 Unauthorized, with both stores unchanged and no side
effect, regardless of the request body. -/
theorem C7_unauthorized_no_mutation (secret token : Option String)
    (h : token ≠ secret) (st : OrderStore) (id : Nat) (sv : JSVal)
    (ms : MenuStore) (mb : MenuBody) (mid : Nat) (available : Bool) :
    patchOrder secret token st id sv = (.unauthorized 401 "Unauthorized", st, [])
      ∧ getMenuAll secret token ms = (.unauthorized 401 "Unauthorized", ms, [])
      ∧ postMenu secret token ms mb = (.unauthorized 401 "Unauthorized", ms, [])
      ∧ patchMenu secret token ms mid available
          = (.unauthorized 401 "Unauthorized", ms, []) := by
  have hg : requireCashier secret token = false := by
    simp only [requireCashier, beq_eq_false_iff_ne, ne_eq]
    exact h
  refine ⟨?_, ?_, ?_, ?_⟩ <;> simp [patchOrder, getMenuAll, postMenu, patchMenu, hg]

/-- Witness for C7: with the secret configured and no header supplied,
every cashier-restricted endpoint answers 401 and mutates nothing. -/
theorem C7_unauthorized_no_mutation_witness :
    patchOrder (some "secret-7") none st0 1 (.str "ready")
        = (.unauthorized 401 "Unauthorized", st0, [])
      ∧ getMenuAll (some "secret-7") none ms0
          = (.unauthorized 401 "Unauthorized", ms0, [])
      ∧ postMenu (some "secret-7") none ms0 sampleMenuBody
          = (.unauthorized 401 "Unauthorized", ms0, [])
      ∧ patchMenu (some "secret-7") none ms0 1 false
          = (.unauthorized 401 "Unauthorized", ms0, []) :=
  C7_unauthorized_no_mutation (some "secret-7") none (by decide) st0 1
    (.str "ready") ms0 sampleMenuBody 1 false

/-- C8: the public menu listing only ever returns items with
`available = true`, the cashier listing returns exactly the stored
items, and both are in ascending creation order. -/
theorem C8_menu_listings (ms : MenuStore) :
    (∀ m ∈ listPublic ms, m.available = true)
      ∧ (∀ m : MenuItem, m ∈ listAll ms ↔ m ∈ ms.items)
      ∧ (listPublic ms).Pairwise (fun a b => a.createdAt ≤ b.createdAt)
      ∧ (listAll ms).Pairwise (fun a b => a.createdAt ≤ b.createdAt) := by
  have htrans : ∀ a b c : MenuItem,
      decide (a.createdAt ≤ b.createdAt) → decide (b.createdAt ≤ c.createdAt) →
        decide (a.createdAt ≤ c.createdAt) := by
    intro a b c hab hbc
    simp only [decide_eq_true_eq] at *
    omega
  have htotal : ∀ a b : MenuItem,
      decide (a.createdAt ≤ b.createdAt) || decide (b.createdAt ≤ a.createdAt) := by
    intro a b
    simp only [Bool.or_eq_true, decide_eq_true_eq]
    omega
  refine ⟨?_, ?_, ?_, ?_⟩
  · intro m hm
    have : m ∈ ms.items.filter (fun m => m.available) := by
      simpa [listPublic, sortByCreatedAt] using hm
    simpa using (List.mem_filter.1 this).2
  · intro m
    simp [listAll, sortByCreatedAt]
  · exact (List.sorted_mergeSort htrans htotal _).imp (by simp)
  · exact (List.sorted_mergeSort htrans htotal _).imp (by simp)

/-- The malicious order item `{name: "Gotcha", price: -5, qty: 1}` —
well-typed, so it passes the implemented validation. -/
def negItem : ItemInput :=
  { name := .str "Gotcha", price := .num (-5), qty := .num 1 }

/-- A body carrying the negatively priced item. -/
def negBody : OrdersBody :=
  { tableId := .num 1, items := some [negItem], total := .undef }

/-- The order persisted for `negBody`: its total is -5. -/
def negOrder : Order :=
  { id := 1, tableId := 1, items := [{ name := "Gotcha", qty := 1, price := -5 }],
    total := -5, status := "pending", paid := false, createdAt := 0 }

/-- C9 counterexample: the implemented validation only checks the
runtime types of `name`/`price`/`qty`, so a negative price passes it and
an Order with a negative total is accepted, persisted and broadcast. -/
theorem C9_counterexample :
    postOrders st0 negBody
      = (.created 201 negOrder, { orders := [negOrder], nextId := 2, now := 1 },
         [.orderWrite negOrder, .emitOrderEvent "order:new" negOrder])
      ∧ negOrder.total < 0 := by
  constructor
  · simp [postOrders, st0, negBody, negItem, negOrder, computeTotal, jsNumber,
      isIntegerJS, validItem, typeofString, typeofNumber, toItem, jsString]
  · norm_num [negOrder]

/-- C9 amended: the implemented validation does not bound prices or
quantities, so a persisted total may be negative; whenever every
submitted item has nonnegative price and quantity, the server-computed
total of the accepted Order is nonnegative. -/
theorem C9_total_nonneg (st : OrderStore) (body : OrdersBody)
    (o : Order) (st' : OrderStore) (tr : List Event)
    (h : postOrders st body = (.created 201 o, st', tr))
    (hnn : ∀ i ∈ body.items.getD [],
        0 ≤ jsNumber i.price ∧ 0 ≤ jsNumber i.qty) :
    0 ≤ o.total := by
  obtain ⟨items, hits, -, -, -, ho, -, -⟩ := postOrders_created st body o st' tr h
  subst ho
  simp only [computeTotal_eq]
  apply List.sum_nonneg
  intro x hx
  simp only [List.mem_map] at hx
  obtain ⟨i, hi, rfl⟩ := hx
  have hnni := hnn i (by simp [hits, hi])
  exact mul_nonneg hnni.1 hnni.2

/-- Witness for C9 amended: the soup order (price 4.5 ≥ 0, qty 2 ≥ 0)
has nonnegative total. -/
theorem C9_total_nonneg_witness : 0 ≤ soupOrder.total :=
  C9_total_nonneg st0 soupBody soupOrder soupStore soupTrace postOrders_soup
    (by
      intro i hi
      simp only [soupBody, Option.getD_some, List.mem_singleton] at hi
      subst hi
      refine ⟨?_, ?_⟩ <;> norm_num [soupItem, jsNumber])

/-- The gate `requireStaff` from the variant in `src/unnamed/part_001`: the
request proceeds iff the header strictly equals the cashier secret or
the kitchen secret. -/
def requireStaff (cashierSecret kitchenSecret token : Option String) : Bool :=
  token == cashierSecret || token == kitchenSecret

/-- C10: with no cashier secret configured, a request with no
`x-access-token` header passes the gate (`undefined === undefined`), so
the gated PATCH /api/orders/:id behaves exactly as its authorized
handler body; the staff-gate variant admits the anonymous request the
same way. -/
theorem C10_missing_secret_authorizes_anonymous :
    requireCashier none none = true
      ∧ requireStaff none none none = true
      ∧ ∀ (st : OrderStore) (id : Nat) (sv : JSVal),
          patchOrder none none st id sv = patchOrderInner st id sv := by
  refine ⟨rfl, rfl, fun st id sv => ?_⟩
  simp [patchOrder, requireCashier]

end Scan2Eat
